import Mathlib

/-!
Shallow embedding of the fpl-mcp-server core (bootstrap cache, search,
error classifier, tool handlers) together with theorems checking the
natural-language specification against the code.

Strings from the TypeScript source that undergo character-level
operations (toLowerCase, trim, includes) are modelled as List Char;
error messages, which are only compared for identity, are Lean String.
Timestamps (Date.now(), kickoff times) are integers.
-/

/-- JavaScript whitespace characters relevant to String.prototype.trim
(ASCII fragment: space, tab, LF, CR, VT, FF). -/
def isJsWhitespace (c : Char) : Bool :=
  c == ' ' || c == '\t' || c == '\n' || c == '\r' || c == '\x0b' || c == '\x0c'

/-- ASCII model of String.prototype.toLowerCase applied to one character. -/
def charToLower (c : Char) : Char :=
  if 'A' ≤ c ∧ c ≤ 'Z' then Char.ofNat (c.toNat + 32) else c

/-- Model of String.prototype.trim: drop whitespace from both ends. -/
def trimChars (s : List Char) : List Char :=
  ((s.dropWhile isJsWhitespace).reverse.dropWhile isJsWhitespace).reverse

/-- Model of String.prototype.includes: does the needle occur as a
contiguous substring of the haystack? -/
def containsSub (hay needle : List Char) : Bool :=
  match hay with
  | [] => needle.isEmpty
  | _ :: t => needle.isPrefixOf hay || containsSub t needle

/-! ## Error model (src/utils/error-handler.ts) -/

/-- Closed error-code taxonomy of the error handler. -/
inductive ErrorCode where
  | VALIDATION_ERROR
  | INVALID_PLAYER_ID
  | INVALID_GAMEWEEK
  | INVALID_TEAM_ID
  | API_UNAVAILABLE
  | API_TIMEOUT
  | API_RATE_LIMITED
  | API_INVALID_RESPONSE
  | PLAYER_NOT_FOUND
  | TEAM_NOT_FOUND
  | GAMEWEEK_NOT_FOUND
  | NO_DATA_AVAILABLE
  | INTERNAL_ERROR
  | NETWORK_ERROR
deriving DecidableEq

/-- Shapes of the ad-hoc details objects attached to error responses. -/
inductive ErrDetails where
  | noDetails
  | emptyObj
  | statusD (status : Int)
  | codeD (code : String)
  | errorMsg (msg : String)
  | managerIdD (managerId : Nat)
  | invalidIdsD (ids : List Nat)
deriving DecidableEq

/-- Standardized error response envelope. -/
structure ErrorResponse where
  error : Bool
  message : String
  code : ErrorCode
  details : ErrDetails
deriving DecidableEq

/-- ErrorHandler.createErrorResponse. -/
def createErrorResponse (code : ErrorCode) (message : String) (details : ErrDetails) :
    ErrorResponse :=
  { error := true, message := message, code := code, details := details }

/-- Exceptions thrown inside a tool operation: either a domain FPLError
carrying its own code, or a plain JavaScript Error. -/
inductive Thrown where
  | fplError (code : ErrorCode) (message : String) (details : ErrDetails)
  | jsError (message : String)
deriving DecidableEq

/-- ErrorHandler.handleUnexpectedError (production path: no stack details). -/
def handleUnexpectedError : ErrorResponse :=
  createErrorResponse ErrorCode.INTERNAL_ERROR
    "An unexpected error occurred. Please try again." ErrDetails.noDetails

/-- catch-branch of safeExecute: an FPLError keeps its pre-assigned code,
anything else becomes the unexpected-error response. -/
def catchThrown : Thrown → ErrorResponse
  | Thrown.fplError c m d => createErrorResponse c m d
  | Thrown.jsError _ => handleUnexpectedError

/-- Shape of a raw failure as inspected by ErrorHandler.handleApiError:
an optional HTTP response status and an optional Node error code string. -/
structure RawApiError where
  responseStatus : Option Int
  code : Option String
deriving DecidableEq

/-- ErrorHandler.handleApiError: classification of raw failures. -/
def handleApiError (e : RawApiError) : ErrorResponse :=
  if e.responseStatus == some 429 then
    createErrorResponse ErrorCode.API_RATE_LIMITED
      "FPL API rate limit exceeded. Please try again later."
      (ErrDetails.statusD 429)
  else if e.code == some "ENOTFOUND" || e.code == some "ECONNREFUSED" then
    createErrorResponse ErrorCode.NETWORK_ERROR
      "Unable to connect to FPL API. Please check your internet connection."
      (ErrDetails.codeD ((e.code).getD ""))
  else if e.code == some "ETIMEDOUT" then
    createErrorResponse ErrorCode.API_TIMEOUT
      "FPL API request timed out. Please try again."
      (ErrDetails.codeD "ETIMEDOUT")
  else
    match e.responseStatus with
    | some s =>
      if s ≥ 500 then
        createErrorResponse ErrorCode.API_UNAVAILABLE
          "FPL API is currently unavailable. Please try again later."
          (ErrDetails.statusD s)
      else
        createErrorResponse ErrorCode.API_INVALID_RESPONSE
          "Received invalid response from FPL API." (ErrDetails.errorMsg "")
    | none =>
      createErrorResponse ErrorCode.API_INVALID_RESPONSE
        "Received invalid response from FPL API." (ErrDetails.errorMsg "")

/-- ErrorHandler.isRetryableError. -/
def isRetryableError (e : ErrorResponse) : Bool :=
  [ErrorCode.API_TIMEOUT, ErrorCode.NETWORK_ERROR, ErrorCode.API_UNAVAILABLE].contains e.code

/-- Outcome of a tool handler: a success envelope with data or an error
envelope, mirroring the JSON texts the handlers serialize. -/
inductive ToolResult (α : Type) where
  | success (data : α)
  | failure (err : ErrorResponse)
deriving DecidableEq

/-- Composition of safeExecute with the handlers' final branch on
whether the result is an error envelope. -/
def runTool {α : Type} (r : Except Thrown α) : ToolResult α :=
  match r with
  | Except.ok a => ToolResult.success a
  | Except.error t => ToolResult.failure (catchThrown t)

/-! ## Bootstrap data model (src/utils/bootstrap-cache.ts, fpl-types) -/

/-- Raw player element of the upstream bootstrap response (fields used
by the code). -/
structure Player where
  id : Nat
  web_name : List Char
  first_name : List Char
  second_name : List Char
  team : Nat
  element_type : Nat
  now_cost : Nat
  total_points : Int
  goals_scored : Nat
  assists : Nat
  selected_by_percent : List Char
  form : List Char
deriving DecidableEq

/-- Raw team record of the upstream bootstrap response. -/
structure Team where
  id : Nat
  name : List Char
  short_name : List Char
  code : Nat
deriving DecidableEq

/-- Raw position-type record of the upstream bootstrap response. -/
structure ElementType where
  id : Nat
  singular_name : List Char
deriving DecidableEq

/-- Raw gameweek event record of the upstream bootstrap response. -/
structure GWEvent where
  id : Nat
  deadline_time : List Char
  finished : Bool
  is_current : Bool
  is_next : Bool
deriving DecidableEq

/-- Upstream bootstrap response as it arrives: any of the collections the
code inspects may be absent (undefined/null are modelled as none). -/
structure RawBootstrap where
  elements : Option (List Player)
  teams : Option (List Team)
  element_types : Option (List ElementType)
  events : Option (List GWEvent)
deriving DecidableEq

/-- Bootstrap data after the cache's presence check: the three checked
collections are known to be present; events is passed through unchecked. -/
structure BootstrapData where
  elements : List Player
  teams : List Team
  element_types : List ElementType
  events : Option (List GWEvent)
deriving DecidableEq

/-- Presence validation performed by BootstrapCache.getBootstrapData:
the condition (!data || !data.elements || !data.teams ||
!data.element_types) in JavaScript tests only for absent (null or
undefined) collections; an empty array is truthy and passes. -/
def validateBootstrap : Option RawBootstrap → Option BootstrapData
  | none => none
  | some r =>
    match r.elements, r.teams, r.element_types with
    | some es, some ts, some ets =>
      some { elements := es, teams := ts, element_types := ets, events := r.events }
    | _, _, _ => none

/-- Mutable state of the BootstrapCache singleton. -/
structure CacheState where
  cache : Option BootstrapData
  lastFetch : Int
deriving DecidableEq

/-- CACHE_TTL: one hour in milliseconds. -/
def CACHE_TTL : Int := 3600000

/-- Fetch-and-store path of getBootstrapData: one upstream fetch, the
presence check, then store with the current timestamp (the old snapshot
is replaced wholesale, never merged). The returned Nat counts upstream
fetches performed by the call. -/
def fetchAndStore (st : CacheState) (now : Int) (upstream : Option RawBootstrap) :
    Except Thrown BootstrapData × CacheState × Nat :=
  match validateBootstrap upstream with
  | none =>
    (Except.error (Thrown.fplError ErrorCode.NO_DATA_AVAILABLE
      "Failed to fetch bootstrap data from FPL API" ErrDetails.emptyObj), st, 1)
  | some d => (Except.ok d, { cache := some d, lastFetch := now }, 1)

/-- BootstrapCache.getBootstrapData, as a function of the cache state,
the current time and the upstream response a fetch would yield. -/
def getBootstrapData (st : CacheState) (now : Int) (upstream : Option RawBootstrap) :
    Except Thrown BootstrapData × CacheState × Nat :=
  match st.cache with
  | some c =>
    if now - st.lastFetch < CACHE_TTL then (Except.ok c, st, 0)
    else fetchAndStore st now upstream
  | none => fetchAndStore st now upstream

/-! ## Name search (BootstrapCache.searchPlayers / searchTeams) -/

/-- Result row of searchPlayers. Cost is a rational: now_cost / 10. -/
structure PlayerSearchResult where
  id : Nat
  name : List Char
  fullName : List Char
  team : List Char
  teamId : Nat
  position : List Char
  cost : ℚ
deriving DecidableEq

/-- Result row of searchTeams. -/
structure TeamSearchResult where
  id : Nat
  name : List Char
  shortName : List Char
  code : Nat
deriving DecidableEq

/-- Query normalization in searchPlayers and searchTeams:
query.toLowerCase().trim(). -/
def normalizeQuery (q : List Char) : List Char :=
  trimChars (q.map charToLower)

/-- Match predicate of searchPlayers: the normalized query occurs in the
lowercased web name, in the lowercased full name (first + space + last),
in the lowercased first name, or in the lowercased last name. -/
def playerMatches (nq : List Char) (p : Player) : Bool :=
  let webName := p.web_name.map charToLower
  let firstName := p.first_name.map charToLower
  let secondName := p.second_name.map charToLower
  let fullName := firstName ++ [' '] ++ secondName
  containsSub webName nq || containsSub fullName nq ||
    containsSub firstName nq || containsSub secondName nq

/-- Row constructor of searchPlayers: team and position are resolved by
first id match, defaulting to "Unknown". -/
def toPlayerResult (data : BootstrapData) (p : Player) : PlayerSearchResult :=
  let team := data.teams.find? (fun t => t.id == p.team)
  let position := data.element_types.find? (fun et => et.id == p.element_type)
  { id := p.id
    name := p.web_name
    fullName := p.first_name ++ [' '] ++ p.second_name
    team := match team with | some t => t.name | none => "Unknown".toList
    teamId := p.team
    position := match position with | some et => et.singular_name | none => "Unknown".toList
    cost := (p.now_cost : ℚ) / 10 }

/-- BootstrapCache.searchPlayers applied to a snapshot: filter in element
order, map to result rows, truncate to the first 10. -/
def searchPlayers (data : BootstrapData) (query : List Char) : List PlayerSearchResult :=
  (((data.elements.filter (playerMatches (normalizeQuery query)))).map
    (toPlayerResult data)).take 10

/-- Match predicate of searchTeams: the normalized query occurs in the
lowercased full name or in the lowercased short name. -/
def teamMatches (nq : List Char) (t : Team) : Bool :=
  containsSub (t.name.map charToLower) nq || containsSub (t.short_name.map charToLower) nq

/-- Row constructor of searchTeams. -/
def toTeamResult (t : Team) : TeamSearchResult :=
  { id := t.id, name := t.name, shortName := t.short_name, code := t.code }

/-- BootstrapCache.searchTeams applied to a snapshot: no result cap. -/
def searchTeams (data : BootstrapData) (query : List Char) : List TeamSearchResult :=
  (data.teams.filter (teamMatches (normalizeQuery query))).map toTeamResult

/-! ## compare_players (src/tools/compare-players.ts) -/

/-- Model of parseFloat on the upstream string-encoded decimals
(e.g. selected_by_percent): leading digits with an optional fractional
part; none models NaN for strings with no leading digit. -/
def parseFloatQ (s : List Char) : Option ℚ :=
  let intPart := s.takeWhile Char.isDigit
  let rest := s.dropWhile Char.isDigit
  if intPart.isEmpty then none
  else
    let whole : ℚ := ((String.mk intPart).toNat?.getD 0 : ℚ)
    match rest with
    | '.' :: r =>
      let fracDigits := r.takeWhile Char.isDigit
      let frac : ℚ := (((String.mk fracDigits).toNat?.getD 0 : Nat) : ℚ) / ((10 : ℚ) ^ fracDigits.length)
      some (whole + frac)
    | _ => some whole

/-- Reshaped per-player statistics row of compare_players. -/
structure PlayerStats where
  id : Nat
  name : List Char
  position : List Char
  team : List Char
  totalPoints : Int
  goals : Nat
  assists : Nat
  cost : ℚ
  ownership : Option ℚ
  form : List Char
deriving DecidableEq

/-- Row constructor of compare_players for one resolved player. -/
def buildStats (teams : List Team) (elementTypes : List ElementType) (p : Player) :
    PlayerStats :=
  let team := teams.find? (fun t => t.id == p.team)
  let elementType := elementTypes.find? (fun et => et.id == p.element_type)
  { id := p.id
    name := p.web_name
    position := match elementType with
      | some et => et.singular_name
      | none => "Unknown Position".toList
    team := match team with | some t => t.name | none => "Unknown Team".toList
    totalPoints := p.total_points
    goals := p.goals_scored
    assists := p.assists
    cost := (p.now_cost : ℚ) / 10
    ownership := parseFloatQ p.selected_by_percent
    form := p.form }

/-- Resolution loop of compare_players (comparePlayersTool lines 69-101):
each id is looked up in the elements collection; hits are appended to
validPlayers, misses to invalidPlayerIds, both in input order. -/
def resolveIds (elements : List Player) (teams : List Team)
    (elementTypes : List ElementType) : List Nat → List PlayerStats × List Nat
  | [] => ([], [])
  | pid :: rest =>
    match elements.find? (fun e => e.id == pid) with
    | none =>
      ((resolveIds elements teams elementTypes rest).1,
       pid :: (resolveIds elements teams elementTypes rest).2)
    | some p =>
      (buildStats teams elementTypes p :: (resolveIds elements teams elementTypes rest).1,
       (resolveIds elements teams elementTypes rest).2)

/-- Summary block of the comparison payload. -/
structure ComparisonSummary where
  totalPlayers : Nat
  validPlayers : Nat
  invalidPlayers : Nat
deriving DecidableEq

/-- Payload of a successful compare_players call. -/
structure PlayerComparison where
  validPlayers : List PlayerStats
  invalidPlayerIds : List Nat
  comparison : ComparisonSummary
deriving DecidableEq

/-- Operation body of comparePlayersTool after input validation: presence
check on the bootstrap response, resolution loop, PLAYER_NOT_FOUND when
zero ids resolve. -/
def comparePlayersCore (playerIds : List Nat) (raw : Option RawBootstrap) :
    Except Thrown PlayerComparison :=
  match raw with
  | none => Except.error (Thrown.jsError "No player data available from FPL API")
  | some bs =>
    match bs.elements, bs.teams, bs.element_types with
    | some es, some ts, some ets =>
      let r := resolveIds es ts ets playerIds
      if r.1.isEmpty then
        Except.error (Thrown.fplError ErrorCode.PLAYER_NOT_FOUND
          "None of the provided player IDs were found." (ErrDetails.invalidIdsD r.2))
      else
        Except.ok
          { validPlayers := r.1, invalidPlayerIds := r.2,
            comparison :=
              { totalPlayers := playerIds.length,
                validPlayers := r.1.length, invalidPlayers := r.2.length } }
    | _, _, _ => Except.error (Thrown.jsError "No player data available from FPL API")

/-- comparePlayersTool after validation: the operation run under
safeExecute, serialized as a success or error envelope. -/
def comparePlayersTool (playerIds : List Nat) (raw : Option RawBootstrap) :
    ToolResult PlayerComparison :=
  runTool (comparePlayersCore playerIds raw)

/-- ComparePlayersInputSchema: array of 2-10 integer ids, each 1-1000,
no duplicates. -/
def comparePlayersSchemaAccepts (ids : List Nat) : Bool :=
  2 ≤ ids.length && ids.length ≤ 10 &&
    ids.all (fun i => 1 ≤ i && i ≤ 1000) &&
    ids.eraseDups.length == ids.length

/-! ## get_gameweek_fixtures (src/tools/fixtures.ts) -/

/-- Raw fixture record of the upstream fixtures endpoint. The event id is
optional (null for unscheduled fixtures); kickoff_time is modelled by its
timestamp, none standing for a null or empty kickoff string. -/
structure ApiFixture where
  id : Nat
  event : Option Int
  team_h : Nat
  team_a : Nat
  kickoff_time : Option Nat
  team_h_score : Option Nat
  team_a_score : Option Nat
  finished : Bool
deriving DecidableEq

/-- Reshaped fixture row returned by get_gameweek_fixtures; a none
kickoffTime renders as the string TBD. -/
structure Fixture where
  id : Nat
  gameweek : Option Int
  homeTeam : List Char
  awayTeam : List Char
  kickoffTime : Option Nat
  homeScore : Option Nat
  awayScore : Option Nat
  finished : Bool
deriving DecidableEq

/-- Per-fixture transformation of get_gameweek_fixtures: resolve both team
names through the team map (first id match; team ids are unique upstream)
and throw when either is absent or empty (an empty name string is falsy
in JavaScript). -/
def transformFixture (teams : List Team) (f : ApiFixture) : Except Thrown Fixture :=
  match (teams.find? (fun t => t.id == f.team_h)).map Team.name,
        (teams.find? (fun t => t.id == f.team_a)).map Team.name with
  | some h, some a =>
    if h.isEmpty || a.isEmpty then
      Except.error (Thrown.jsError "Unable to find team names for fixture")
    else
      Except.ok
        { id := f.id, gameweek := f.event, homeTeam := h, awayTeam := a,
          kickoffTime := f.kickoff_time, homeScore := f.team_h_score,
          awayScore := f.team_a_score, finished := f.finished }
  | _, _ => Except.error (Thrown.jsError "Unable to find team names for fixture")

/-- Transformation mapped over the filtered fixtures, propagating the
first thrown error as Array.prototype.map with a throwing callback does. -/
def transformAll (teams : List Team) : List ApiFixture → Except Thrown (List Fixture)
  | [] => Except.ok []
  | f :: rest =>
    match transformFixture teams f with
    | Except.error e => Except.error e
    | Except.ok x =>
      match transformAll teams rest with
      | Except.error e => Except.error e
      | Except.ok xs => Except.ok (x :: xs)

/-- Kickoff comparator of get_gameweek_fixtures, as the predicate
"a sorts no later than b": TBD entries compare equal to each other and
after every scheduled fixture; scheduled fixtures compare by timestamp. -/
def fixtureLE (a b : Fixture) : Bool :=
  match a.kickoffTime, b.kickoffTime with
  | none, none => true
  | none, some _ => false
  | some _, none => true
  | some x, some y => decide (x ≤ y)

/-- Helper: the kickoff comparator is transitive. -/
theorem fixtureLE_trans (a b c : Fixture) (hab : fixtureLE a b = true)
    (hbc : fixtureLE b c = true) : fixtureLE a c = true := by
  rcases ha : a.kickoffTime with _ | x <;>
    rcases hb : b.kickoffTime with _ | y <;>
      rcases hc : c.kickoffTime with _ | z <;>
        simp_all [fixtureLE]
  omega

/-- Helper: the kickoff comparator is total. -/
theorem fixtureLE_total (a b : Fixture) : (fixtureLE a b || fixtureLE b a) = true := by
  rcases ha : a.kickoffTime with _ | x <;>
    rcases hb : b.kickoffTime with _ | y <;>
      simp_all [fixtureLE]
  omega

/-- Kickoff comparator as a decidable relation: Array.prototype.sort with
a consistent comparator produces a stable sort by this relation, modelled
below by a stable insertion sort. -/
def fixtureRel (a b : Fixture) : Prop := fixtureLE a b = true

instance : DecidableRel fixtureRel := fun a b =>
  inferInstanceAs (Decidable (fixtureLE a b = true))

instance : IsTotal Fixture fixtureRel :=
  ⟨fun a b => Bool.or_eq_true_iff.mp (fixtureLE_total a b)⟩

instance : IsTrans Fixture fixtureRel :=
  ⟨fun a b c => fixtureLE_trans a b c⟩

/-- Operation body of getGameweekFixturesTool: fetch bootstrap data (one
upstream fetch), check the teams collection, fetch the fixtures list
(second upstream fetch), filter by the requested gameweek, range-check
the gameweek only when no fixture matched, transform, sort. The Nat
component counts upstream fetches performed. -/
def getGameweekFixturesCore (gameweek : Int) (bootstrap : Option RawBootstrap)
    (fixturesData : Option (List ApiFixture)) : Except Thrown (List Fixture) × Nat :=
  match bootstrap with
  | none => (Except.error (Thrown.jsError "Unable to retrieve team data from FPL API"), 1)
  | some bs =>
    match bs.teams with
    | none => (Except.error (Thrown.jsError "Unable to retrieve team data from FPL API"), 1)
    | some teams =>
      match fixturesData with
      | none =>
        (Except.error (Thrown.jsError "Unable to retrieve fixtures data from FPL API"), 2)
      | some allFixtures =>
        let gameweekFixtures := allFixtures.filter (fun f => f.event == some gameweek)
        if gameweekFixtures.isEmpty then
          if gameweek < 1 || gameweek > 38 then
            (Except.error (Thrown.jsError "Invalid gameweek number"), 2)
          else
            (Except.ok [], 2)
        else
          match transformAll teams gameweekFixtures with
          | Except.error e => (Except.error e, 2)
          | Except.ok ts => (Except.ok (List.insertionSort fixtureRel ts), 2)

/-- getGameweekFixturesTool: the operation run under safeExecute,
serialized as a success or error envelope, paired with the number of
upstream fetches the call performed. -/
def getGameweekFixturesTool (gameweek : Int) (bootstrap : Option RawBootstrap)
    (fixturesData : Option (List ApiFixture)) : ToolResult (List Fixture) × Nat :=
  ((runTool (getGameweekFixturesCore gameweek bootstrap fixturesData).1),
   (getGameweekFixturesCore gameweek bootstrap fixturesData).2)

/-- GameweekFixturesInputSchema: an integer gameweek between 1 and 38.
The check is a pure function of its argument and performs no network
access by construction. -/
def gameweekSchemaAccepts (g : Int) : Bool :=
  1 ≤ g && g ≤ 38

/-! ## get_current_gameweek (src/tools/gameweek.ts) -/

/-- Reshaped payload of get_current_gameweek. -/
structure GameweekStatus where
  current : Nat
  deadline : List Char
  finished : Bool
  next : Option Nat
deriving DecidableEq

/-- Operation body of getCurrentGameweekTool: check the events collection
is present and non-empty, look for the event flagged is_current, fall back
to the event flagged is_next (reported with finished := false), and throw
when neither exists. -/
def getCurrentGameweekCore (bootstrap : Option RawBootstrap) :
    Except Thrown GameweekStatus :=
  match bootstrap with
  | none => Except.error (Thrown.jsError "No gameweek data available from FPL API")
  | some bs =>
    match bs.events with
    | none => Except.error (Thrown.jsError "No gameweek data available from FPL API")
    | some events =>
      if events.isEmpty then
        Except.error (Thrown.jsError "No gameweek data available from FPL API")
      else
        match events.find? (fun e => e.is_current) with
        | none =>
          match events.find? (fun e => e.is_next) with
          | none => Except.error (Thrown.jsError "Unable to determine current or next gameweek")
          | some n =>
            Except.ok { current := n.id, deadline := n.deadline_time,
                        finished := false, next := none }
        | some c =>
          Except.ok { current := c.id, deadline := c.deadline_time,
                      finished := c.finished,
                      next := (events.find? (fun e => e.is_next)).map GWEvent.id }

/-- getCurrentGameweekTool: the operation run under safeExecute. -/
def getCurrentGameweekTool (bootstrap : Option RawBootstrap) :
    ToolResult GameweekStatus :=
  runTool (getCurrentGameweekCore bootstrap)

/-! ## get_manager_team (manager tool source) -/

/-- Manager summary fields used by getManagerTeamTool. -/
structure ManagerSummary where
  name : List Char
  current_event : Nat
deriving DecidableEq

/-- Manager-existence step of getManagerTeamTool: when the upstream
manager summary lookup yields no manager, the operation returns (not
throws) a PLAYER_NOT_FOUND error envelope carrying the manager id;
otherwise it continues with the downstream pick enrichment, abstracted
here as a continuation. -/
def getManagerTeamOp {α : Type} (managerId : Nat) (summary : Option ManagerSummary)
    (proceed : ManagerSummary → Except Thrown (ErrorResponse ⊕ α)) :
    Except Thrown (ErrorResponse ⊕ α) :=
  match summary with
  | none =>
    Except.ok (Sum.inl (createErrorResponse ErrorCode.PLAYER_NOT_FOUND
      ("Manager with ID " ++ toString managerId ++ " not found.")
      (ErrDetails.managerIdD managerId)))
  | some s => proceed s

/-- Envelope branch of getManagerTeamTool: a thrown error is classified by
safeExecute; an ErrorResponse returned as a value is recognized by the
final check for an error field and serialized as the error envelope. -/
def runManagerTool {α : Type} (r : Except Thrown (ErrorResponse ⊕ α)) : ToolResult α :=
  match r with
  | Except.error t => ToolResult.failure (catchThrown t)
  | Except.ok (Sum.inl e) => ToolResult.failure e
  | Except.ok (Sum.inr a) => ToolResult.success a

/-- getManagerTeamTool up to the manager-existence check. -/
def getManagerTeamTool {α : Type} (managerId : Nat) (summary : Option ManagerSummary)
    (proceed : ManagerSummary → Except Thrown (ErrorResponse ⊕ α)) : ToolResult α :=
  runManagerTool (getManagerTeamOp managerId summary proceed)

/-- SearchPlayersInputSchema and SearchTeamsInputSchema: a query string of
length 1 to 100. -/
def searchQuerySchemaAccepts (q : List Char) : Bool :=
  1 ≤ q.length && q.length ≤ 100

/-! ## Theorems about the bootstrap cache -/

/-- Helper: a fresh cached snapshot is served without fetching. -/
theorem getBootstrapData_cached (st : CacheState) (now : Int) (up : Option RawBootstrap)
    (c : BootstrapData) (h : st.cache = some c) (hf : now - st.lastFetch < CACHE_TTL) :
    getBootstrapData st now up = (Except.ok c, st, 0) := by
  unfold getBootstrapData
  rw [h]
  simp [hf]

/-- Helper: a call that returns a snapshot leaves exactly that snapshot in
the cache and fetches at most once. -/
theorem getBootstrapData_ok_state (st : CacheState) (now : Int) (up : Option RawBootstrap)
    (s : BootstrapData) (h : (getBootstrapData st now up).1 = Except.ok s) :
    (getBootstrapData st now up).2.1.cache = some s ∧
      (getBootstrapData st now up).2.2 ≤ 1 := by
  obtain ⟨cch, lf⟩ := st
  rcases cch with _ | c
  · rcases hv : validateBootstrap up with _ | d
    · simp [getBootstrapData, fetchAndStore, hv] at h
    · simp [getBootstrapData, fetchAndStore, hv] at h ⊢
      simp [h]
  · by_cases hf : now - lf < CACHE_TTL
    · simp only [getBootstrapData] at h ⊢
      simp [hf] at h ⊢
      simp [h]
    · rcases hv : validateBootstrap up with _ | d
      · simp [getBootstrapData, fetchAndStore, hf, hv] at h
      · simp [getBootstrapData, fetchAndStore, hf, hv] at h ⊢
        simp [h]

/-- C1: within the TTL window a second getBootstrapData call fetches
nothing and returns the very snapshot the first call returned (at most one
fetch across both calls); a call made with a stale cached snapshot fetches
exactly once and replaces the snapshot wholesale with the validated new
response. -/
theorem cache_ttl_freshness_C1 :
    (∀ (st : CacheState) (t1 t2 : Int) (up1 up2 : Option RawBootstrap) (s : BootstrapData),
      (getBootstrapData st t1 up1).1 = Except.ok s →
      t2 - (getBootstrapData st t1 up1).2.1.lastFetch < CACHE_TTL →
      (getBootstrapData (getBootstrapData st t1 up1).2.1 t2 up2).1 = Except.ok s ∧
      (getBootstrapData st t1 up1).2.2 +
        (getBootstrapData (getBootstrapData st t1 up1).2.1 t2 up2).2.2 ≤ 1) ∧
    (∀ (st : CacheState) (now : Int) (up : Option RawBootstrap) (c d : BootstrapData),
      st.cache = some c → ¬ (now - st.lastFetch < CACHE_TTL) →
      validateBootstrap up = some d →
      getBootstrapData st now up =
        (Except.ok d, { cache := some d, lastFetch := now }, 1)) := by
  constructor
  · intro st t1 t2 up1 up2 s h1 h2
    obtain ⟨hcache, hcount⟩ := getBootstrapData_ok_state st t1 up1 s h1
    have hsecond := getBootstrapData_cached (getBootstrapData st t1 up1).2.1 t2 up2 s hcache h2
    rw [hsecond]
    exact ⟨rfl, by simpa using hcount⟩
  · intro st now up c d hc hstale hv
    simp [getBootstrapData, fetchAndStore, hc, hstale, hv]

/-- Witness for C1 at concrete inputs: a cold cache, a valid upstream
response, a second call 10 ms later, and a stale cache refreshed at
exactly the TTL boundary. -/
theorem cache_ttl_freshness_C1_witness :
    ((getBootstrapData
        { cache := none, lastFetch := 0 } 0
        (some { elements := some [], teams := some [], element_types := some [], events := none })).2.2 +
      (getBootstrapData
        (getBootstrapData { cache := none, lastFetch := 0 } 0
          (some { elements := some [], teams := some [], element_types := some [], events := none })).2.1
        10 none).2.2 ≤ 1) ∧
    getBootstrapData
        { cache := some { elements := [], teams := [], element_types := [], events := none },
          lastFetch := 0 } 3600000
        (some { elements := some [⟨7, [], [], [], 1, 1, 50, 0, 0, 0, [], []⟩],
                teams := some [], element_types := some [], events := none }) =
      (Except.ok { elements := [⟨7, [], [], [], 1, 1, 50, 0, 0, 0, [], []⟩],
                   teams := [], element_types := [], events := none },
       { cache := some { elements := [⟨7, [], [], [], 1, 1, 50, 0, 0, 0, [], []⟩],
                         teams := [], element_types := [], events := none },
         lastFetch := 3600000 }, 1) := by
  constructor
  · exact (cache_ttl_freshness_C1.1
      { cache := none, lastFetch := 0 } 0 10
      (some { elements := some [], teams := some [], element_types := some [], events := none })
      none
      { elements := [], teams := [], element_types := [], events := none }
      rfl (by decide)).2
  · exact cache_ttl_freshness_C1.2
      { cache := some { elements := [], teams := [], element_types := [], events := none },
        lastFetch := 0 } 3600000
      (some { elements := some [⟨7, [], [], [], 1, 1, 50, 0, 0, 0, [], []⟩],
              teams := some [], element_types := some [], events := none })
      { elements := [], teams := [], element_types := [], events := none }
      { elements := [⟨7, [], [], [], 1, 1, 50, 0, 0, 0, [], []⟩],
        teams := [], element_types := [], events := none }
      rfl (by decide) rfl

/-- C2 counterexample: an upstream response whose player, team and
position-type collections are all present but EMPTY passes the cache's
presence check, is stored, and is returned as a success — the claim says
an empty required collection must fail with NO_DATA_AVAILABLE and must
not be stored. -/
theorem bootstrap_validation_C2_counterexample :
    (getBootstrapData { cache := none, lastFetch := 0 } 0
        (some { elements := some [], teams := some [], element_types := some [], events := none })).1
      = Except.ok { elements := [], teams := [], element_types := [], events := none } ∧
    (getBootstrapData { cache := none, lastFetch := 0 } 0
        (some { elements := some [], teams := some [], element_types := some [], events := none })).2.1.cache
      = some { elements := [], teams := [], element_types := [], events := none } :=
  ⟨rfl, rfl⟩

/-- C2 (amended): when the cache is empty or stale, getBootstrapData
performs exactly one upstream fetch; it validates only the PRESENCE of
the player, team and position-type collections (a present-but-empty
collection passes): a missing collection or a null response fails with a
NO_DATA_AVAILABLE FPLError and leaves the cache state unchanged, and any
response passing the presence check is stored and returned. -/
theorem bootstrap_validation_C2 :
    ∀ (st : CacheState) (now : Int) (up : Option RawBootstrap),
      (st.cache = none ∨ ¬ (now - st.lastFetch < CACHE_TTL)) →
      (getBootstrapData st now up).2.2 = 1 ∧
      (validateBootstrap up = none →
        (getBootstrapData st now up).1 =
          Except.error (Thrown.fplError ErrorCode.NO_DATA_AVAILABLE
            "Failed to fetch bootstrap data from FPL API" ErrDetails.emptyObj) ∧
        (getBootstrapData st now up).2.1 = st) ∧
      (∀ d, validateBootstrap up = some d →
        (getBootstrapData st now up).1 = Except.ok d ∧
        (getBootstrapData st now up).2.1 = { cache := some d, lastFetch := now }) ∧
      (validateBootstrap up = none ↔
        up = none ∨ ∃ r, up = some r ∧
          (r.elements = none ∨ r.teams = none ∨ r.element_types = none)) := by
  intro st now up hstale
  obtain ⟨cch, lf⟩ := st
  have hfetch : getBootstrapData ⟨cch, lf⟩ now up = fetchAndStore ⟨cch, lf⟩ now up := by
    rcases cch with _ | c
    · simp [getBootstrapData]
    · rcases hstale with h | h
      · simp at h
      · simp only [CacheState.lastFetch] at h
        simp [getBootstrapData, h]
  rw [hfetch]
  refine ⟨?_, ?_, ?_, ?_⟩
  · unfold fetchAndStore
    rcases hv : validateBootstrap up with _ | d <;> simp
  · intro hv
    unfold fetchAndStore
    rw [hv]
    exact ⟨rfl, rfl⟩
  · intro d hv
    unfold fetchAndStore
    rw [hv]
    exact ⟨rfl, rfl⟩
  · constructor
    · intro hv
      rcases up with _ | r
      · exact Or.inl rfl
      · refine Or.inr ⟨r, rfl, ?_⟩
        rcases he : r.elements with _ | es
        · exact Or.inl rfl
        · rcases ht : r.teams with _ | ts
          · exact Or.inr (Or.inl rfl)
          · rcases hp : r.element_types with _ | ets
            · exact Or.inr (Or.inr rfl)
            · simp [validateBootstrap, he, ht, hp] at hv
    · intro hv
      rcases hv with h | ⟨r, hr, hmiss⟩
      · rw [h]
        rfl
      · subst hr
        rcases he : r.elements with _ | es <;>
          rcases ht : r.teams with _ | ts <;>
            rcases hp : r.element_types with _ | ets <;>
              simp_all [validateBootstrap]

/-- Witness for C2 at concrete inputs: a cold cache with a null upstream
response fails with NO_DATA_AVAILABLE without storing anything. -/
theorem bootstrap_validation_C2_witness :
    (getBootstrapData { cache := none, lastFetch := 0 } 0 none).2.2 = 1 ∧
    (getBootstrapData { cache := none, lastFetch := 0 } 0 none).1 =
      Except.error (Thrown.fplError ErrorCode.NO_DATA_AVAILABLE
        "Failed to fetch bootstrap data from FPL API" ErrDetails.emptyObj) := by
  have h := bootstrap_validation_C2 { cache := none, lastFetch := 0 } 0 none (Or.inl rfl)
  exact ⟨h.1, (h.2.1 rfl).1⟩

/-! ## Theorems about the error classifier -/

/-- C8: handleApiError classifies raw failures in priority order — status
429 gives API_RATE_LIMITED; otherwise ENOTFOUND or ECONNREFUSED gives
NETWORK_ERROR; otherwise ETIMEDOUT gives API_TIMEOUT; otherwise a status
of at least 500 gives API_UNAVAILABLE; everything else gives
API_INVALID_RESPONSE. A thrown FPLError keeps its pre-assigned code in
safeExecute, and isRetryableError holds for exactly API_TIMEOUT,
NETWORK_ERROR and API_UNAVAILABLE. -/
theorem error_classifier_C8 :
    (∀ e : RawApiError,
      (e.responseStatus = some 429 →
        (handleApiError e).code = ErrorCode.API_RATE_LIMITED) ∧
      (e.responseStatus ≠ some 429 →
        (e.code = some "ENOTFOUND" ∨ e.code = some "ECONNREFUSED") →
        (handleApiError e).code = ErrorCode.NETWORK_ERROR) ∧
      (e.responseStatus ≠ some 429 →
        e.code ≠ some "ENOTFOUND" → e.code ≠ some "ECONNREFUSED" →
        e.code = some "ETIMEDOUT" →
        (handleApiError e).code = ErrorCode.API_TIMEOUT) ∧
      (∀ s : Int, e.responseStatus = some s → s ≠ 429 → s ≥ 500 →
        e.code ≠ some "ENOTFOUND" → e.code ≠ some "ECONNREFUSED" →
        e.code ≠ some "ETIMEDOUT" →
        (handleApiError e).code = ErrorCode.API_UNAVAILABLE) ∧
      ((e.responseStatus = none ∨ ∃ s, e.responseStatus = some s ∧ s ≠ 429 ∧ s < 500) →
        e.code ≠ some "ENOTFOUND" → e.code ≠ some "ECONNREFUSED" →
        e.code ≠ some "ETIMEDOUT" →
        (handleApiError e).code = ErrorCode.API_INVALID_RESPONSE)) ∧
    (∀ (c : ErrorCode) (m : String) (d : ErrDetails),
      (catchThrown (Thrown.fplError c m d)).code = c) ∧
    (∀ r : ErrorResponse,
      isRetryableError r = true ↔
        (r.code = ErrorCode.API_TIMEOUT ∨ r.code = ErrorCode.NETWORK_ERROR ∨
         r.code = ErrorCode.API_UNAVAILABLE)) := by
  refine ⟨?_, ?_, ?_⟩
  · intro e
    refine ⟨?_, ?_, ?_, ?_, ?_⟩
    · intro h
      simp [handleApiError, h, createErrorResponse]
    · intro h hcode
      rcases hcode with h1 | h1 <;>
        simp [handleApiError, h, h1, createErrorResponse]
    · intro h h1 h2 h3
      simp [handleApiError, h, h1, h2, h3, createErrorResponse]
    · intro s hs hne hge h1 h2 h3
      have h429 : e.responseStatus ≠ some 429 := by
        rw [hs]
        simp [hne]
      simp [handleApiError, hs, h429, hne, h1, h2, h3, hge, createErrorResponse]
    · intro hs h1 h2 h3
      rcases hs with h | ⟨s, hs, hne, hlt⟩
      · simp [handleApiError, h, h1, h2, h3, createErrorResponse]
      · have h429 : e.responseStatus ≠ some 429 := by
          rw [hs]
          simp [hne]
        have hnge : ¬ (s ≥ 500) := by omega
        simp [handleApiError, hs, h429, hne, h1, h2, h3, hnge, createErrorResponse]
  · intro c m d
    rfl
  · intro r
    constructor
    · intro h
      simp [isRetryableError, List.contains] at h
      rcases r with ⟨e, m, c, d⟩
      cases c <;> simp_all
    · intro h
      rcases h with h | h | h <;> simp [isRetryableError, h]

/-- Witness for C8 at concrete inputs: a 429 response, a timeout code, and
a NETWORK_ERROR response checked retryable. -/
theorem error_classifier_C8_witness :
    (handleApiError { responseStatus := some 429, code := none }).code =
        ErrorCode.API_RATE_LIMITED ∧
    (handleApiError { responseStatus := none, code := some "ETIMEDOUT" }).code =
        ErrorCode.API_TIMEOUT ∧
    isRetryableError (createErrorResponse ErrorCode.NETWORK_ERROR "m" ErrDetails.noDetails) =
        true := by
  refine ⟨(error_classifier_C8.1 _).1 rfl, ?_, ?_⟩
  · exact (error_classifier_C8.1 { responseStatus := none, code := some "ETIMEDOUT" }).2.2.1
      (by simp) (by decide) (by decide) rfl
  · exact (error_classifier_C8.2.2 _).mpr (Or.inr (Or.inl rfl))

/-! ## Theorem about get_manager_team -/

/-- C10: when the upstream manager summary lookup yields no manager,
getManagerTeamTool returns an error envelope whose code is
PLAYER_NOT_FOUND (not a manager-specific code) with the manager id in
the details. -/
theorem manager_not_found_C10 {α : Type} :
    ∀ (managerId : Nat) (proceed : ManagerSummary → Except Thrown (ErrorResponse ⊕ α)),
      getManagerTeamTool managerId none proceed =
        ToolResult.failure (createErrorResponse ErrorCode.PLAYER_NOT_FOUND
          ("Manager with ID " ++ toString managerId ++ " not found.")
          (ErrDetails.managerIdD managerId)) ∧
      (createErrorResponse ErrorCode.PLAYER_NOT_FOUND
          ("Manager with ID " ++ toString managerId ++ " not found.")
          (ErrDetails.managerIdD managerId)).code = ErrorCode.PLAYER_NOT_FOUND ∧
      (createErrorResponse ErrorCode.PLAYER_NOT_FOUND
          ("Manager with ID " ++ toString managerId ++ " not found.")
          (ErrDetails.managerIdD managerId)).details = ErrDetails.managerIdD managerId := by
  intro managerId proceed
  exact ⟨rfl, rfl, rfl⟩

/-- Witness for C10 at a concrete manager id and continuation. -/
theorem manager_not_found_C10_witness :
    getManagerTeamTool (α := Unit) 424242 none (fun _ => Except.ok (Sum.inr ())) =
      ToolResult.failure (createErrorResponse ErrorCode.PLAYER_NOT_FOUND
        "Manager with ID 424242 not found." (ErrDetails.managerIdD 424242)) := by
  have h := manager_not_found_C10 (α := Unit) 424242 (fun _ => Except.ok (Sum.inr ()))
  exact h.1

/-! ## Theorems about compare_players -/

/-- Helper: the invalid ids collected by the resolution loop are exactly
the input ids that have no matching element, in input order. -/
theorem resolveIds_invalid (es : List Player) (ts : List Team) (ets : List ElementType) :
    ∀ ids : List Nat, (resolveIds es ts ets ids).2 =
      ids.filter (fun i => (es.find? (fun e => e.id == i)).isNone) := by
  intro ids
  induction ids with
  | nil => rfl
  | cons pid rest ih =>
    rcases hf : es.find? (fun e => e.id == pid) with _ | p <;>
      simp [resolveIds, hf, ih]

/-- Helper: the valid rows built by the resolution loop are exactly the
resolvable input ids mapped to their statistics rows, in input order. -/
theorem resolveIds_valid (es : List Player) (ts : List Team) (ets : List ElementType) :
    ∀ ids : List Nat, (resolveIds es ts ets ids).1 =
      ids.filterMap (fun i => (es.find? (fun e => e.id == i)).map (buildStats ts ets)) := by
  intro ids
  induction ids with
  | nil => rfl
  | cons pid rest ih =>
    rcases hf : es.find? (fun e => e.id == pid) with _ | p <;>
      simp [resolveIds, hf, ih]

/-- Helper: the resolution loop yields no valid row exactly when no input
id resolves. -/
theorem resolveIds_nil_iff (es : List Player) (ts : List Team) (ets : List ElementType)
    (ids : List Nat) : (resolveIds es ts ets ids).1 = [] ↔
      ∀ i ∈ ids, es.find? (fun e => e.id == i) = none := by
  rw [resolveIds_valid]
  rw [List.filterMap_eq_nil_iff]
  constructor
  · intro h i hi
    have := h i hi
    simpa using this
  · intro h i hi
    simp [h i hi]

/-- C5: compare_players tolerates partial failure — every validated id
list resolves each id against the snapshot; unresolved ids are collected
into invalidPlayerIds (in order) and excluded from validPlayers; the call
succeeds whenever at least one id resolves, and fails with a
PLAYER_NOT_FOUND error exactly when zero ids resolve. -/
theorem compare_players_partial_failure_C5 :
    ∀ (ids : List Nat) (es : List Player) (ts : List Team) (ets : List ElementType)
      (ev : Option (List GWEvent)),
      comparePlayersSchemaAccepts ids = true →
      (resolveIds es ts ets ids).2 =
          ids.filter (fun i => (es.find? (fun e => e.id == i)).isNone) ∧
      (resolveIds es ts ets ids).1 =
          ids.filterMap (fun i => (es.find? (fun e => e.id == i)).map (buildStats ts ets)) ∧
      ((∃ i ∈ ids, (es.find? (fun e => e.id == i)).isSome) →
        comparePlayersTool ids
            (some { elements := some es, teams := some ts, element_types := some ets,
                    events := ev }) =
          ToolResult.success
            { validPlayers := (resolveIds es ts ets ids).1,
              invalidPlayerIds := (resolveIds es ts ets ids).2,
              comparison :=
                { totalPlayers := ids.length,
                  validPlayers := (resolveIds es ts ets ids).1.length,
                  invalidPlayers := (resolveIds es ts ets ids).2.length } }) ∧
      ((∀ i ∈ ids, es.find? (fun e => e.id == i) = none) →
        comparePlayersTool ids
            (some { elements := some es, teams := some ts, element_types := some ets,
                    events := ev }) =
          ToolResult.failure (createErrorResponse ErrorCode.PLAYER_NOT_FOUND
            "None of the provided player IDs were found."
            (ErrDetails.invalidIdsD (resolveIds es ts ets ids).2))) := by
  intro ids es ts ets ev _hschema
  refine ⟨resolveIds_invalid es ts ets ids, resolveIds_valid es ts ets ids, ?_, ?_⟩
  · intro hsome
    have hne : (resolveIds es ts ets ids).1 ≠ [] := by
      intro hnil
      obtain ⟨i, hi, hs⟩ := hsome
      have := (resolveIds_nil_iff es ts ets ids).mp hnil i hi
      rw [this] at hs
      simp at hs
    simp [comparePlayersTool, comparePlayersCore, runTool, List.isEmpty_iff, hne]
  · intro hnone
    have hnil : (resolveIds es ts ets ids).1 = [] :=
      (resolveIds_nil_iff es ts ets ids).mpr hnone
    simp [comparePlayersTool, comparePlayersCore, runTool, List.isEmpty_iff, hnil,
      catchThrown]

/-- Witness for C5 at concrete inputs: ids [1, 999] against a snapshot
holding only player 1 succeed with 999 collected as invalid; ids [2, 3]
against the same snapshot fail with PLAYER_NOT_FOUND. -/
theorem compare_players_partial_failure_C5_witness :
    comparePlayersTool [1, 999]
        (some { elements := some [⟨1, [], [], [], 1, 1, 50, 0, 0, 0, [], []⟩],
                teams := some [], element_types := some [], events := none }) =
      ToolResult.success
        { validPlayers :=
            (resolveIds [⟨1, [], [], [], 1, 1, 50, 0, 0, 0, [], []⟩] [] [] [1, 999]).1,
          invalidPlayerIds :=
            (resolveIds [⟨1, [], [], [], 1, 1, 50, 0, 0, 0, [], []⟩] [] [] [1, 999]).2,
          comparison :=
            { totalPlayers := 2,
              validPlayers :=
                (resolveIds [⟨1, [], [], [], 1, 1, 50, 0, 0, 0, [], []⟩] [] [] [1, 999]).1.length,
              invalidPlayers :=
                (resolveIds [⟨1, [], [], [], 1, 1, 50, 0, 0, 0, [], []⟩] [] [] [1, 999]).2.length } } ∧
    comparePlayersTool [2, 3]
        (some { elements := some [⟨1, [], [], [], 1, 1, 50, 0, 0, 0, [], []⟩],
                teams := some [], element_types := some [], events := none }) =
      ToolResult.failure (createErrorResponse ErrorCode.PLAYER_NOT_FOUND
        "None of the provided player IDs were found."
        (ErrDetails.invalidIdsD [2, 3])) := by
  constructor
  · exact (compare_players_partial_failure_C5 [1, 999]
      [⟨1, [], [], [], 1, 1, 50, 0, 0, 0, [], []⟩] [] [] none (by decide)).2.2.1
      ⟨1, by decide, by decide⟩
  · have h := (compare_players_partial_failure_C5 [2, 3]
      [⟨1, [], [], [], 1, 1, 50, 0, 0, 0, [], []⟩] [] [] none (by decide)).2.2.2
      (by decide)
    simpa using h

/-! ## Theorems about get_current_gameweek -/

/-- C7: get_current_gameweek returns the event flagged is_current; with no
is_current event it falls back to the first is_next event reported as
current with finished false; with neither it fails with a structured error
envelope (error true), not a crash. -/
theorem current_gameweek_fallback_C7 :
    ∀ (els : Option (List Player)) (tms : Option (List Team))
      (ets : Option (List ElementType)) (events : List GWEvent),
      (∀ c, events.find? (fun e => e.is_current) = some c →
        getCurrentGameweekTool
            (some { elements := els, teams := tms, element_types := ets,
                    events := some events }) =
          ToolResult.success
            { current := c.id, deadline := c.deadline_time, finished := c.finished,
              next := (events.find? (fun e => e.is_next)).map GWEvent.id }) ∧
      (events.find? (fun e => e.is_current) = none →
        ∀ n, events.find? (fun e => e.is_next) = some n →
          getCurrentGameweekTool
              (some { elements := els, teams := tms, element_types := ets,
                      events := some events }) =
            ToolResult.success
              { current := n.id, deadline := n.deadline_time, finished := false,
                next := none }) ∧
      (events.find? (fun e => e.is_current) = none →
        events.find? (fun e => e.is_next) = none →
          getCurrentGameweekTool
              (some { elements := els, teams := tms, element_types := ets,
                      events := some events }) =
            ToolResult.failure handleUnexpectedError ∧
          handleUnexpectedError.error = true ∧
          handleUnexpectedError.code = ErrorCode.INTERNAL_ERROR) := by
  intro els tms ets events
  refine ⟨?_, ?_, ?_⟩
  · intro c hc
    have hne : events ≠ [] := by
      intro h
      subst h
      simp at hc
    simp [getCurrentGameweekTool, getCurrentGameweekCore, runTool, hc,
      List.isEmpty_iff, hne]
  · intro hc n hn
    have hne : events ≠ [] := by
      intro h
      subst h
      simp at hn
    simp [getCurrentGameweekTool, getCurrentGameweekCore, runTool, hc, hn,
      List.isEmpty_iff, hne]
  · intro hc hn
    rcases events with _ | ⟨e, rest⟩
    · exact ⟨rfl, rfl, rfl⟩
    · refine ⟨?_, rfl, rfl⟩
      simp [getCurrentGameweekTool, getCurrentGameweekCore, runTool, hc, hn,
        catchThrown]

/-- Witness for C7 at concrete inputs: a single event flagged is_next only
is reported as the current gameweek with finished false. -/
theorem current_gameweek_fallback_C7_witness :
    getCurrentGameweekTool
        (some { elements := none, teams := none, element_types := none,
                events := some [⟨5, ['d'], false, false, true⟩] }) =
      ToolResult.success { current := 5, deadline := ['d'], finished := false,
                           next := none } := by
  exact (current_gameweek_fallback_C7 none none none
    [⟨5, ['d'], false, false, true⟩]).2.1 (by decide) ⟨5, ['d'], false, false, true⟩
    (by decide)

/-! ## Theorems about get_gameweek_fixtures validation (C4) -/

/-- C4 counterexample: when the handler itself is invoked with
gameweek 39 it performs its two upstream fetches and returns an
INTERNAL_ERROR envelope — not a VALIDATION_ERROR envelope with zero
fetches as the claim states. -/
theorem fixtures_validation_C4_counterexample :
    (getGameweekFixturesTool 39
        (some { elements := none, teams := some [⟨1, ['A'], ['A'], 1⟩],
                element_types := none, events := none })
        (some [⟨1, some 1, 1, 1, none, none, none, false⟩])).2 = 2 ∧
    (getGameweekFixturesTool 39
        (some { elements := none, teams := some [⟨1, ['A'], ['A'], 1⟩],
                element_types := none, events := none })
        (some [⟨1, some 1, 1, 1, none, none, none, false⟩])).1 =
      ToolResult.failure handleUnexpectedError ∧
    handleUnexpectedError.code = ErrorCode.INTERNAL_ERROR ∧
    ¬ handleUnexpectedError.code = ErrorCode.VALIDATION_ERROR := by
  exact ⟨rfl, rfl, rfl, by decide⟩

/-- C4 (amended): gameweek 39 fails the GameweekFixturesInputSchema range
check, which is a pure function and performs no network access; but the
handler itself does no input validation: invoked with any out-of-range
gameweek (no fixture carrying that event id), it performs its two
upstream fetches and returns an INTERNAL_ERROR envelope, not a
VALIDATION_ERROR one. -/
theorem fixtures_validation_C4 :
    gameweekSchemaAccepts 39 = false ∧
    (∀ g : Int, gameweekSchemaAccepts g = false → (g < 1 ∨ g > 38)) ∧
    (∀ (g : Int) (els : Option (List Player)) (ets : Option (List ElementType))
       (evs : Option (List GWEvent)) (teams : List Team) (fxs : List ApiFixture),
      gameweekSchemaAccepts g = false →
      (∀ f ∈ fxs, f.event ≠ some g) →
      getGameweekFixturesTool g
          (some { elements := els, teams := some teams, element_types := ets,
                  events := evs })
          (some fxs) =
        (ToolResult.failure handleUnexpectedError, 2) ∧
      handleUnexpectedError.code = ErrorCode.INTERNAL_ERROR) := by
  refine ⟨by decide, ?_, ?_⟩
  · intro g hg
    by_contra hcon
    push_neg at hcon
    obtain ⟨h1, h2⟩ := hcon
    simp [gameweekSchemaAccepts, h1, h2] at hg
  · intro g els ets evs teams fxs hg hne
    have hfil : fxs.filter (fun f => f.event == some g) = [] := by
      rw [List.filter_eq_nil_iff]
      intro f hf
      simp [hne f hf]
    have hrange : g < 1 ∨ 38 < g := by
      by_contra hcon
      push_neg at hcon
      obtain ⟨h1, h2⟩ := hcon
      simp [gameweekSchemaAccepts, h1, h2] at hg
    refine ⟨?_, rfl⟩
    rcases hrange with h | h <;>
      simp [getGameweekFixturesTool, getGameweekFixturesCore, runTool, hfil, h,
        catchThrown]

/-- Witness for C4 at concrete inputs: gameweek 39 with a well-formed
upstream environment and no matching fixtures. -/
theorem fixtures_validation_C4_witness :
    gameweekSchemaAccepts 39 = false ∧
    getGameweekFixturesTool 39
        (some { elements := none, teams := some [⟨2, ['B'], ['B'], 2⟩],
                element_types := none, events := none })
        (some []) =
      (ToolResult.failure handleUnexpectedError, 2) := by
  refine ⟨fixtures_validation_C4.1, ?_⟩
  exact (fixtures_validation_C4.2.2 39 none none none [⟨2, ['B'], ['B'], 2⟩] []
    (by decide) (by simp)).1

/-! ## Theorems about get_gameweek_fixtures results (C6) -/

/-- Sortedness relation claimed for fixture lists: scheduled fixtures are
in ascending kickoff order and TBD (no kickoff) fixtures come last. -/
def kickoffSorted (a b : Fixture) : Prop :=
  (a.kickoffTime = none → b.kickoffTime = none) ∧
  ∀ x y, a.kickoffTime = some x → b.kickoffTime = some y → x ≤ y

/-- Helper: the comparator implies the claimed sortedness relation. -/
theorem fixtureLE_kickoffSorted (a b : Fixture) (h : fixtureLE a b = true) :
    kickoffSorted a b := by
  rcases ha : a.kickoffTime with _ | x <;>
    rcases hb : b.kickoffTime with _ | y <;>
      simp_all [fixtureLE, kickoffSorted]

/-- Helper: a transformed fixture keeps the raw fixture's event id. -/
theorem transformFixture_gameweek (teams : List Team) (f : ApiFixture) (y : Fixture)
    (h : transformFixture teams f = Except.ok y) : y.gameweek = f.event := by
  unfold transformFixture at h
  split at h
  · split at h
    · exact absurd h (by simp)
    · simp only [Except.ok.injEq] at h
      rw [← h]
  · exact absurd h (by simp)

/-- Helper: every row produced by the fixture transformation stems from a
raw fixture of the input list and keeps its event id. -/
theorem transformAll_gameweek (teams : List Team) :
    ∀ (fl : List ApiFixture) (l : List Fixture), transformAll teams fl = Except.ok l →
      ∀ x ∈ l, ∃ f ∈ fl, x.gameweek = f.event := by
  intro fl
  induction fl with
  | nil =>
    intro l h x hx
    simp only [transformAll, Except.ok.injEq] at h
    subst h
    simp at hx
  | cons f rest ih =>
    intro l h x hx
    simp only [transformAll] at h
    rcases htf : transformFixture teams f with e | y
    · rw [htf] at h
      exact absurd h (by simp)
    · rw [htf] at h
      rcases hta : transformAll teams rest with e | ys
      · rw [hta] at h
        exact absurd h (by simp)
      · rw [hta] at h
        simp only [Except.ok.injEq] at h
        subst h
        rcases List.mem_cons.mp hx with hx1 | hx2
        · subst hx1
          exact ⟨f, List.mem_cons_self f rest, transformFixture_gameweek teams f x htf⟩
        · obtain ⟨g, hg, hgw⟩ := ih ys hta x hx2
          exact ⟨g, List.mem_cons_of_mem f hg, hgw⟩

/-- Helper: a tool call succeeds with payload a exactly when its operation
returned a without throwing. -/
theorem runTool_success_iff {α : Type} (r : Except Thrown α) (a : α) :
    runTool r = ToolResult.success a ↔ r = Except.ok a := by
  cases r <;> simp [runTool]

/-- C6: every fixture list returned successfully by get_gameweek_fixtures
for gameweek g contains only fixtures whose event id equals g and is
sorted ascending by kickoff time with TBD fixtures last; and for a valid
gameweek with no matching fixtures the call succeeds with the empty list
(after its two upstream fetches), not an error. -/
theorem gameweek_fixtures_C6 :
    ∀ (g : Int) (els : Option (List Player)) (ets : Option (List ElementType))
      (evs : Option (List GWEvent)) (teams : List Team) (fxs : List ApiFixture)
      (l : List Fixture),
      ((getGameweekFixturesTool g
            (some { elements := els, teams := some teams, element_types := ets,
                    events := evs }) (some fxs)).1 = ToolResult.success l →
        (∀ x ∈ l, x.gameweek = some g) ∧ l.Pairwise kickoffSorted) ∧
      (1 ≤ g → g ≤ 38 → fxs.filter (fun f => f.event == some g) = [] →
        getGameweekFixturesTool g
            (some { elements := els, teams := some teams, element_types := ets,
                    events := evs }) (some fxs) =
          (ToolResult.success [], 2)) := by
  intro g els ets evs teams fxs l
  constructor
  · intro htool
    have hcore : (getGameweekFixturesCore g
        (some { elements := els, teams := some teams, element_types := ets,
                events := evs }) (some fxs)).1 = Except.ok l := by
      exact (runTool_success_iff _ l).mp htool
    simp only [getGameweekFixturesCore] at hcore
    by_cases hemp : (fxs.filter (fun f => f.event == some g)).isEmpty
    · rw [if_pos hemp] at hcore
      by_cases hrange : (g < 1 || g > 38) = true
      · rw [if_pos hrange] at hcore
        exact absurd hcore (by simp)
      · rw [if_neg hrange] at hcore
        simp only [Except.ok.injEq] at hcore
        subst hcore
        simp
    · rw [if_neg hemp] at hcore
      rcases hta : transformAll teams (fxs.filter (fun f => f.event == some g))
          with e | ts
      · rw [hta] at hcore
        exact absurd hcore (by simp)
      · rw [hta] at hcore
        simp only [Except.ok.injEq] at hcore
        subst hcore
        constructor
        · intro x hx
          have hmem : x ∈ ts := ((List.perm_insertionSort fixtureRel ts).mem_iff).mp hx
          obtain ⟨f, hf, hgw⟩ := transformAll_gameweek teams _ ts hta x hmem
          have hev : (f.event == some g) = true := (List.mem_filter.mp hf).2
          rw [hgw]
          exact beq_iff_eq.mp hev
        · have hsorted := List.sorted_insertionSort fixtureRel ts
          exact hsorted.imp (fun hle => fixtureLE_kickoffSorted _ _ hle)
  · intro hg1 hg2 hfil
    have hrange : ¬ ((g < 1 || g > 38) = true) := by
      simp
      omega
    simp [getGameweekFixturesTool, getGameweekFixturesCore, runTool, hfil, hrange]

/-- Witness for C6 at concrete inputs: three fixtures of gameweek 5 (one
TBD, two scheduled out of order) come back sorted with TBD last, and a
valid gameweek with no fixtures yields an empty success. -/
theorem gameweek_fixtures_C6_witness :
    ((∀ x ∈ [({ id := 3, gameweek := some 5, homeTeam := ['A'], awayTeam := ['B'],
                kickoffTime := some 100, homeScore := none, awayScore := none,
                finished := false } : Fixture),
              { id := 1, gameweek := some 5, homeTeam := ['A'], awayTeam := ['B'],
                kickoffTime := some 200, homeScore := none, awayScore := none,
                finished := false },
              { id := 2, gameweek := some 5, homeTeam := ['B'], awayTeam := ['A'],
                kickoffTime := none, homeScore := none, awayScore := none,
                finished := false }],
        x.gameweek = some 5) ∧
      List.Pairwise kickoffSorted
        [({ id := 3, gameweek := some 5, homeTeam := ['A'], awayTeam := ['B'],
            kickoffTime := some 100, homeScore := none, awayScore := none,
            finished := false } : Fixture),
         { id := 1, gameweek := some 5, homeTeam := ['A'], awayTeam := ['B'],
           kickoffTime := some 200, homeScore := none, awayScore := none,
           finished := false },
         { id := 2, gameweek := some 5, homeTeam := ['B'], awayTeam := ['A'],
           kickoffTime := none, homeScore := none, awayScore := none,
           finished := false }]) ∧
    getGameweekFixturesTool 7
        (some { elements := none,
                teams := some [{ id := 1, name := ['A'], short_name := ['A'], code := 1 }],
                element_types := none, events := none })
        (some [{ id := 9, event := some 6, team_h := 1, team_a := 1,
                 kickoff_time := none, team_h_score := none, team_a_score := none,
                 finished := false }]) =
      (ToolResult.success [], 2) := by
  constructor
  · exact (gameweek_fixtures_C6 5 none none none
      [{ id := 1, name := ['A'], short_name := ['A'], code := 1 },
       { id := 2, name := ['B'], short_name := ['B'], code := 2 }]
      [{ id := 1, event := some 5, team_h := 1, team_a := 2, kickoff_time := some 200,
         team_h_score := none, team_a_score := none, finished := false },
       { id := 2, event := some 5, team_h := 2, team_a := 1, kickoff_time := none,
         team_h_score := none, team_a_score := none, finished := false },
       { id := 3, event := some 5, team_h := 1, team_a := 2, kickoff_time := some 100,
         team_h_score := none, team_a_score := none, finished := false },
       { id := 4, event := some 6, team_h := 1, team_a := 2, kickoff_time := some 50,
         team_h_score := none, team_a_score := none, finished := false }]
      _).1 (by decide)
  · exact (gameweek_fixtures_C6 7 none none none
      [{ id := 1, name := ['A'], short_name := ['A'], code := 1 }]
      [{ id := 9, event := some 6, team_h := 1, team_a := 1, kickoff_time := none,
         team_h_score := none, team_a_score := none, finished := false }]
      []).2 (by decide) (by decide) (by decide)

/-! ## Theorems about searchPlayers and searchTeams -/

/-- Helper: the empty needle is a substring of every haystack. -/
theorem containsSub_nil (hay : List Char) : containsSub hay [] = true := by
  cases hay <;> rfl

/-- Helper: every player matches the empty normalized query. -/
theorem playerMatches_nil (p : Player) : playerMatches [] p = true := by
  simp [playerMatches, containsSub_nil]

/-- Helper: every team matches the empty normalized query. -/
theorem teamMatches_nil (t : Team) : teamMatches [] t = true := by
  simp [teamMatches, containsSub_nil]

/-- C3: for every query and snapshot, searchPlayers returns at most 10
results; every result is built from a snapshot player matched by the
normalized (lowercased, trimmed) query against web name, full name, first
name or last name; and the result list is exactly the first 10 matching
players in the snapshot's element order, with no ranking. -/
theorem search_players_props_C3 :
    ∀ (q : List Char) (d : BootstrapData),
      (searchPlayers d q).length ≤ 10 ∧
      (∀ r ∈ searchPlayers d q, ∃ p ∈ d.elements,
          playerMatches (normalizeQuery q) p = true ∧ r = toPlayerResult d p) ∧
      searchPlayers d q =
        ((d.elements.filter (playerMatches (normalizeQuery q))).take 10).map
          (toPlayerResult d) := by
  intro q d
  refine ⟨?_, ?_, ?_⟩
  · exact List.length_take_le 10 _
  · intro r hr
    have hr2 := List.mem_of_mem_take hr
    obtain ⟨p, hp, rfl⟩ := List.mem_map.mp hr2
    exact ⟨p, (List.mem_filter.mp hp).1, (List.mem_filter.mp hp).2, rfl⟩
  · unfold searchPlayers
    rw [List.map_take]

/-- Witness for C3 at a concrete query and snapshot: the result list is
exactly the mapped first-10 prefix of the filtered elements. -/
theorem search_players_props_C3_witness :
    searchPlayers
        { elements := [⟨3, ['b', 'o', 'b'], ['b'], ['b'], 1, 1, 40, 0, 0, 0, [], []⟩],
          teams := [], element_types := [], events := none } ['b'] =
      ((List.filter
          (playerMatches (normalizeQuery ['b']))
          [⟨3, ['b', 'o', 'b'], ['b'], ['b'], 1, 1, 40, 0, 0, 0, [], []⟩]).take 10).map
        (toPlayerResult
          { elements := [⟨3, ['b', 'o', 'b'], ['b'], ['b'], 1, 1, 40, 0, 0, 0, [], []⟩],
            teams := [], element_types := [], events := none }) := by
  exact (search_players_props_C3 ['b']
    { elements := [⟨3, ['b', 'o', 'b'], ['b'], ['b'], 1, 1, 40, 0, 0, 0, [], []⟩],
      teams := [], element_types := [], events := none }).2.2

/-- Helper: lowercasing leaves a whitespace character unchanged. -/
theorem charToLower_ws (c : Char) (h : isJsWhitespace c = true) :
    charToLower c = c := by
  simp [isJsWhitespace] at h
  rcases h with ((((h | h) | h) | h) | h) | h <;> subst h <;> decide

/-- Helper: trimming a string of only whitespace yields the empty string. -/
theorem trimChars_all_ws (s : List Char) (h : ∀ c ∈ s, isJsWhitespace c = true) :
    trimChars s = [] := by
  unfold trimChars
  have h1 : s.dropWhile isJsWhitespace = [] := by
    rw [List.dropWhile_eq_nil_iff]
    exact h
  rw [h1]
  rfl

/-- Helper: normalizing a whitespace-only query yields the empty query. -/
theorem normalizeQuery_ws (q : List Char) (h : ∀ c ∈ q, isJsWhitespace c = true) :
    normalizeQuery q = [] := by
  unfold normalizeQuery
  apply trimChars_all_ws
  intro c hc
  obtain ⟨c0, hc0, rfl⟩ := List.mem_map.mp hc
  rw [charToLower_ws c0 (h c0 hc0)]
  exact h c0 hc0

/-- C9: a whitespace-only query of length 1-100 passes the search input
schema, normalizes to the empty string which is a substring of every
name, so searchPlayers returns exactly the first 10 players of the
snapshot in element order and searchTeams returns every team. -/
theorem whitespace_query_C9 :
    ∀ (q : List Char) (d : BootstrapData),
      (∀ c ∈ q, isJsWhitespace c = true) →
      1 ≤ q.length → q.length ≤ 100 →
      searchQuerySchemaAccepts q = true ∧
      normalizeQuery q = [] ∧
      searchPlayers d q = (d.elements.take 10).map (toPlayerResult d) ∧
      searchTeams d q = d.teams.map toTeamResult := by
  intro q d hws h1 h100
  have hnq := normalizeQuery_ws q hws
  refine ⟨by simp [searchQuerySchemaAccepts, h1, h100], hnq, ?_, ?_⟩
  · unfold searchPlayers
    rw [hnq]
    have hfil : d.elements.filter (playerMatches []) = d.elements :=
      List.filter_eq_self.mpr (fun a _ => playerMatches_nil a)
    rw [hfil, List.map_take]
  · unfold searchTeams
    rw [hnq]
    rw [List.filter_eq_self.mpr (fun a _ => teamMatches_nil a)]

/-- Witness for C9 at a single-space query over a two-player, one-team
snapshot. -/
theorem whitespace_query_C9_witness :
    searchPlayers
        { elements := [⟨1, ['x'], ['x'], ['x'], 1, 1, 40, 0, 0, 0, [], []⟩,
                       ⟨2, ['y'], ['y'], ['y'], 1, 1, 40, 0, 0, 0, [], []⟩],
          teams := [⟨1, ['T'], ['T'], 1⟩], element_types := [], events := none } [' '] =
      (([⟨1, ['x'], ['x'], ['x'], 1, 1, 40, 0, 0, 0, [], []⟩,
         ⟨2, ['y'], ['y'], ['y'], 1, 1, 40, 0, 0, 0, [], []⟩] : List Player).take 10).map
        (toPlayerResult
          { elements := [⟨1, ['x'], ['x'], ['x'], 1, 1, 40, 0, 0, 0, [], []⟩,
                         ⟨2, ['y'], ['y'], ['y'], 1, 1, 40, 0, 0, 0, [], []⟩],
            teams := [⟨1, ['T'], ['T'], 1⟩], element_types := [], events := none }) ∧
    searchTeams
        { elements := [⟨1, ['x'], ['x'], ['x'], 1, 1, 40, 0, 0, 0, [], []⟩,
                       ⟨2, ['y'], ['y'], ['y'], 1, 1, 40, 0, 0, 0, [], []⟩],
          teams := [⟨1, ['T'], ['T'], 1⟩], element_types := [], events := none } [' '] =
      ([⟨1, ['T'], ['T'], 1⟩] : List Team).map toTeamResult := by
  have h := whitespace_query_C9 [' ']
    { elements := [⟨1, ['x'], ['x'], ['x'], 1, 1, 40, 0, 0, 0, [], []⟩,
                   ⟨2, ['y'], ['y'], ['y'], 1, 1, 40, 0, 0, 0, [], []⟩],
      teams := [⟨1, ['T'], ['T'], 1⟩], element_types := [], events := none }
    (by decide) (by decide) (by decide)
  exact ⟨h.2.2.1, h.2.2.2⟩
